import Mathlib

/-!
Shallow embedding of the wallet-service core (Code-Linx/wallet-service):
the ledger mutation and reconciliation engine from
`internal/usecases` (use-case layer), `internal/repositories`
(data access) and `internal/models` (data model).

Modelling conventions:
* `uuid.UUID` is modelled as `Nat`. The `int64` amounts and balances are
  carried as `Int`; Go's two's-complement wrap-around at the three
  balance-write sites (part_004 lines 199, 277, 376/383) is made
  explicit by `wrap64` in the `*64` operation variants, which are the
  int64 semantics of the same source lines. The unsuffixed variants
  compute the same writes over unbounded `Int` and are used only for
  properties whose verdict the wrap cannot flip (error paths, the
  idempotent short-circuit, and sum/difference equalities that are
  wrap-invariant in the program's own int64 arithmetic); the
  non-negativity development uses the `*64` variants throughout.
* A GORM database transaction (`BeginTransaction` .. `Commit`/`Rollback`)
  is modelled by pure state passing: the unit of work computes a candidate
  next state, and every `Rollback` path returns the state the unit started
  from. Wall-clock fields (`CreatedAt`, `UpdatedAt`, `CheckedAt`) and the
  preloaded association fields (`User`, `FromUser`, `ToUser`) of returned
  records are not modelled; `ID` columns of wallets/transactions generated
  by `uuid.New()` play no role in the modelled logic and are omitted.
* Go's sentinel errors (`ErrInvalidAmount`, ...) are constructors of
  `OpError`; errors built with `fmt.Errorf`/`errors.New` at the call site
  (never equal to any sentinel) are `OpError.generic msg`.
-/

namespace WalletService

abbrev UserId := Nat

/-- Model of `models.User` (part_006 lines 11-18): id, name, unique email. -/
structure User where
  id : UserId
  name : String
  email : String
deriving DecidableEq

/-- Model of `models.Wallet` (part_006 lines 21-28): owner id and the
int64 `Balance` column, carried as `Int`; the wrap-around of Go's int64
arithmetic on this field is made explicit by `wrap64` at each write
site in the `*64` operations. -/
structure Wallet where
  userId : UserId
  balance : Int
deriving DecidableEq

/-- Model of `models.TransactionType` (part_006 lines 31-37). -/
inductive TransactionType where
  | credit
  | debit
  | transfer
deriving DecidableEq

/-- Model of `models.TransactionStatus` (part_006 lines 40-46). -/
inductive TransactionStatus where
  | pending
  | completed
  | failed
deriving DecidableEq

/-- Model of `models.Transaction` (part_006 lines 49-64): the ledger entry.
`reference` carries a DB-level uniqueness constraint (line 56). -/
structure Transaction where
  userId : UserId
  type : TransactionType
  amount : Int
  description : String
  status : TransactionStatus
  reference : String
  fromUserId : Option UserId
  toUserId : Option UserId
deriving DecidableEq

/-- The durable store: users, wallets and transactions tables. -/
structure St where
  users : List User
  wallets : List Wallet
  transactions : List Transaction
deriving DecidableEq

/-- Errors surfaced by the use-case layer (part_004 lines 17-25 plus the
`fmt.Errorf` paths). `generic msg` stands for a wrapped/ad-hoc error that
is not equal to any sentinel. -/
inductive OpError where
  | invalidAmount
  | userNotFound
  | userAlreadyExists
  | insufficientFunds
  | sameUser
  | transactionExists
  | walletNotFound
  | generic (msg : String)
deriving DecidableEq

/-- Model of `transactionRepository.GetByReference` (part_005 lines 139-146). -/
def GetByReference (st : St) (r : String) : Option Transaction :=
  st.transactions.find? (fun t => t.reference == r)

/-- Model of `walletRepository.GetByUserID` (part_005 lines 105-112). -/
def WalletGetByUserID (st : St) (u : UserId) : Option Wallet :=
  st.wallets.find? (fun w => w.userId == u)

/-- Model of `userRepository.GetByID` (part_005 lines 75-82). -/
def UserGetByID (st : St) (u : UserId) : Option User :=
  st.users.find? (fun x => x.id == u)

/-- Model of `userRepository.GetByEmail` (part_005 lines 84-91). -/
def GetByEmail (st : St) (e : String) : Option User :=
  st.users.find? (fun x => x.email == e)

/-- One row update per wallet of the user:
`walletRepository.UpdateBalance` (part_005 lines 114-116),
`UPDATE wallets SET balance = ? WHERE user_id = ?`. -/
def updateWallets (l : List Wallet) (u : UserId) (b : Int) : List Wallet :=
  l.map (fun w => if w.userId == u then { w with balance := b } else w)

/-- Model of `walletRepository.UpdateBalance` lifted to the store. -/
def UpdateBalance (st : St) (u : UserId) (b : Int) : St :=
  { st with wallets := updateWallets st.wallets u b }

/-- Model of `transactionRepository.Create` (part_005 lines 135-137): an insert that
fails on the unique constraint of `reference` (part_006 line 56). -/
def TransactionCreate (l : List Transaction) (t : Transaction) :
    Except String (List Transaction) :=
  match l.find? (fun x => x.reference == t.reference) with
  | some _ => .error "UNIQUE constraint violated on transactions.reference"
  | none => .ok (l ++ [t])

/-- Model of `userUseCase.CreateUser` (part_004 lines 79-128): reject a duplicate
email, then in one unit insert the user and a wallet with balance 0.
`uuid.New()` is modelled by the `newId` parameter; the DB primary-key /
unique `user_id` constraints are the two `any` checks. -/
def CreateUser (st : St) (newId : UserId) (name email : String) :
    Except OpError User × St :=
  match GetByEmail st email with
  | some _ => (.error .userAlreadyExists, st)
  | none =>
    if st.users.any (fun x => x.id == newId) then
      (.error (.generic "failed to create user"), st)
    else if st.wallets.any (fun w => w.userId == newId) then
      (.error (.generic "failed to create wallet"), st)
    else
      let user : User := { id := newId, name := name, email := email }
      (.ok user,
        { st with
          users := st.users ++ [user]
          wallets := st.wallets ++ [{ userId := newId, balance := 0 }] })

/-- The atomic unit of `walletUseCase.FundWallet` (part_004 lines 167-208):
fetch the wallet, insert the Completed credit entry, write
`balance + amount`; any failure rolls back to the input state. The sum
is computed over unbounded `Int` here; `FundWalletUnit64` is the same
unit with Go's int64 wrap of the sum made explicit. -/
def FundWalletUnit (st : St) (u : UserId) (a : Int) (r : String) :
    Except OpError Transaction × St :=
  match WalletGetByUserID st u with
  | none => (.error (.generic "failed to get wallet"), st)
  | some wallet =>
    let txn : Transaction :=
      { userId := u, type := .credit, amount := a,
        description := "Wallet funding", status := .completed,
        reference := r, fromUserId := none, toUserId := none }
    match TransactionCreate st.transactions txn with
    | .error _ => (.error (.generic "failed to create transaction"), st)
    | .ok txns =>
      (.ok txn,
        UpdateBalance { st with transactions := txns } u (wallet.balance + a))

/-- Model of `walletUseCase.FundWallet` (part_004 lines 143-213): amount validation,
idempotency pre-check by reference, user existence, then the atomic unit. -/
def FundWallet (st : St) (u : UserId) (a : Int) (r : String) :
    Except OpError Transaction × St :=
  if a ≤ 0 then (.error .invalidAmount, st)
  else
    match GetByReference st r with
    | some existing => (.ok existing, st)
    | none =>
      match UserGetByID st u with
      | none => (.error .userNotFound, st)
      | some _ => FundWalletUnit st u a r

/-- Variant of `FundWallet` with the pre-transaction reads (idempotency check, user
check) evaluated against the store as it was at check time (`stCheck`) and
the atomic unit run against the store as it is at commit time (`stUnit`):
the two differ exactly when a concurrent caller commits in between, which
the Go code permits because the idempotency check runs outside the unit. -/
def FundWalletRaced (stCheck stUnit : St) (u : UserId) (a : Int) (r : String) :
    Except OpError Transaction × St :=
  if a ≤ 0 then (.error .invalidAmount, stCheck)
  else
    match GetByReference stCheck r with
    | some existing => (.ok existing, stCheck)
    | none =>
      match UserGetByID stCheck u with
      | none => (.error .userNotFound, stCheck)
      | some _ => FundWalletUnit stUnit u a r

/-- The atomic unit of `walletUseCase.WithdrawFunds` (part_004 lines
239-286): fetch the wallet, reject `balance < amount`, insert the
Completed debit entry, write `balance - amount` (over unbounded `Int`
here; `WithdrawFundsUnit64` makes the int64 wrap explicit). -/
def WithdrawFundsUnit (st : St) (u : UserId) (a : Int) (r : String) :
    Except OpError Transaction × St :=
  match WalletGetByUserID st u with
  | none => (.error (.generic "failed to get wallet"), st)
  | some wallet =>
    if wallet.balance < a then (.error .insufficientFunds, st)
    else
      let txn : Transaction :=
        { userId := u, type := .debit, amount := a,
          description := "Wallet withdrawal", status := .completed,
          reference := r, fromUserId := none, toUserId := none }
      match TransactionCreate st.transactions txn with
      | .error _ => (.error (.generic "failed to create transaction"), st)
      | .ok txns =>
        (.ok txn,
          UpdateBalance { st with transactions := txns } u (wallet.balance - a))

/-- Model of `walletUseCase.WithdrawFunds` (part_004 lines 215-291). -/
def WithdrawFunds (st : St) (u : UserId) (a : Int) (r : String) :
    Except OpError Transaction × St :=
  if a ≤ 0 then (.error .invalidAmount, st)
  else
    match GetByReference st r with
    | some existing => (.ok existing, st)
    | none =>
      match UserGetByID st u with
      | none => (.error .userNotFound, st)
      | some _ => WithdrawFundsUnit st u a r

/-- The atomic unit of `walletUseCase.TransferFunds` (part_004 lines
329-392): fetch the sender wallet, reject `balance < amount`, fetch the
recipient wallet, insert the Completed transfer entry, debit the sender,
credit the recipient. `toUser` is the recipient row fetched before the
unit; only its name is used (the description string). The debit and
credit are computed over unbounded `Int` here; `TransferFundsUnit64` is
the same unit with Go's int64 wrap of both writes made explicit. -/
def TransferFundsUnit (st : St) (f g : UserId) (a : Int) (r : String)
    (toUser : User) : Except OpError Transaction × St :=
  match WalletGetByUserID st f with
  | none => (.error (.generic "failed to get sender wallet"), st)
  | some fromWallet =>
    if fromWallet.balance < a then (.error .insufficientFunds, st)
    else
      match WalletGetByUserID st g with
      | none => (.error (.generic "failed to get recipient wallet"), st)
      | some toWallet =>
        let txn : Transaction :=
          { userId := f, type := .transfer, amount := a,
            description := "Transfer to " ++ toUser.name,
            status := .completed, reference := r,
            fromUserId := some f, toUserId := some g }
        match TransactionCreate st.transactions txn with
        | .error _ => (.error (.generic "failed to create transaction"), st)
        | .ok txns =>
          let st1 := UpdateBalance { st with transactions := txns } f
            (fromWallet.balance - a)
          (.ok txn, UpdateBalance st1 g (toWallet.balance + a))

/-- Model of `walletUseCase.TransferFunds` (part_004 lines 293-399): amount and
same-user validation, idempotency pre-check, existence of both users
(note: the not-found paths build fresh `fmt.Errorf` errors, not the
`ErrUserNotFound` sentinel), then the atomic unit. -/
def TransferFunds (st : St) (f g : UserId) (a : Int) (r : String) :
    Except OpError Transaction × St :=
  if a ≤ 0 then (.error .invalidAmount, st)
  else if f == g then (.error .sameUser, st)
  else
    match GetByReference st r with
    | some existing => (.ok existing, st)
    | none =>
      match UserGetByID st f with
      | none => (.error (.generic "sender not found"), st)
      | some _ =>
        match UserGetByID st g with
        | none => (.error (.generic "recipient not found"), st)
        | some toUser => TransferFundsUnit st f g a r toUser

/-- The sequence of user ids passed to `walletRepository.GetByUserID`
during one `TransferFunds` call, in call order: the sender wallet is
fetched at part_004 line 339 and the recipient wallet at line 352, after
the funds check. This is the account-access (row-exclusivity) order of a
transfer. -/
def TransferWalletAccessOrder (st : St) (f g : UserId) (a : Int) (r : String) :
    List UserId :=
  if a ≤ 0 then []
  else if f == g then []
  else
    match GetByReference st r with
    | some _ => []
    | none =>
      match UserGetByID st f with
      | none => []
      | some _ =>
        match UserGetByID st g with
        | none => []
        | some _ =>
          match WalletGetByUserID st f with
          | none => [f]
          | some fromWallet =>
            if fromWallet.balance < a then [f] else [f, g]

/-- The balance the store holds for user `u` (0 when no wallet row). -/
def walletBalance (st : St) (u : UserId) : Int :=
  match WalletGetByUserID st u with
  | some w => w.balance
  | none => 0

/-- Whether a use-case result is a success. -/
def isSuccess {ε α : Type} : Except ε α → Bool
  | .ok _ => true
  | .error _ => false

/-- The SQL `WHERE` clause of `GetUserTransactionSum` (part_005 line 187):
`user_id = u OR from_user_id = u OR to_user_id = u`. -/
def touches (u : UserId) (t : Transaction) : Bool :=
  t.userId == u || t.fromUserId == some u || t.toUserId == some u

/-- The SQL `CASE` expression of
`transactionRepository.GetUserTransactionSum` (part_005 lines 177-185),
with the same first-match-wins branch order. -/
def sqlCaseContribution (u : UserId) (t : Transaction) : Int :=
  if t.type == .credit then t.amount
  else if t.type == .debit && t.userId == u then -t.amount
  else if t.type == .transfer && t.fromUserId == some u then -t.amount
  else if t.type == .transfer && t.toUserId == some u then t.amount
  else 0

/-- Model of `transactionRepository.GetUserTransactionSum` (part_005 lines 170-193):
`COALESCE(SUM(CASE ...), 0)` over the rows touching the user with
`status = 'completed'`. -/
def GetUserTransactionSum (st : St) (u : UserId) : Int :=
  ((st.transactions.filter
      (fun t => touches u t && t.status == .completed)).map
    (sqlCaseContribution u)).sum

/-- Modelled from the spec (section 4.4 wording, for comparison with the
source's `sqlCaseContribution`): the signed contribution of one entry —
Credit `+amount`, Debit `-amount`, Transfer `-amount` if the account is
the source and `+amount` if it is the destination. -/
def specContribution (u : UserId) (t : Transaction) : Int :=
  match t.type with
  | .credit => t.amount
  | .debit => -t.amount
  | .transfer =>
    (if t.fromUserId == some u then -t.amount else 0) +
      (if t.toUserId == some u then t.amount else 0)

/-- Modelled from the spec (section 4.4 wording): the derived balance of
account `u` — the sum of `specContribution` over all Completed entries
touching it. -/
def specCalculatedBalance (st : St) (u : UserId) : Int :=
  ((st.transactions.filter
      (fun t => touches u t && t.status == .completed)).map
    (specContribution u)).sum

/-- The data-model shape of entries (spec section 3, matching what the
use cases create): Credit/Debit entries reference exactly one account
(no source/destination fields), a Transfer entry references two distinct
accounts. -/
def WFEntry (t : Transaction) : Prop :=
  (t.type = .transfer → t.fromUserId ≠ t.toUserId) ∧
    (t.type ≠ .transfer → t.fromUserId = none ∧ t.toUserId = none)

instance (t : Transaction) : Decidable (WFEntry t) := by
  unfold WFEntry; infer_instance

/-- Model of `models.ReconciliationResult` (part_006 lines 91-98); the
`time.Now()`-valued `CheckedAt` field is not modelled. -/
structure ReconciliationResult where
  userId : UserId
  storedBalance : Int
  calculatedBalance : Int
  difference : Int
  hasMismatch : Bool
deriving DecidableEq

/-- The result built per wallet in `RunReconciliation` (part_004 lines
438-449): `difference := stored - calculated`,
`hasMismatch := difference != 0`. -/
def mkReconResult (w : Wallet) (c : Int) : ReconciliationResult :=
  { userId := w.userId, storedBalance := w.balance, calculatedBalance := c,
    difference := w.balance - c, hasMismatch := w.balance - c != 0 }

/-- The wallet loop of `reconciliationUseCase.RunReconciliation`
(part_004 lines 430-458), over an abstract per-user sum computation
(the `Transaction.GetUserTransactionSum` repository call, which may
return a database error): on an error the wallet is logged and skipped
(`continue`), otherwise a result is appended. -/
def RunReconciliation (sumFn : UserId → Except String Int) :
    List Wallet → List ReconciliationResult
  | [] => []
  | w :: ws =>
    match sumFn w.userId with
    | .error _ => RunReconciliation sumFn ws
    | .ok c => mkReconResult w c :: RunReconciliation sumFn ws

/-- Model of `reconciliationUseCase.RunReconciliation` (part_004 lines 419-464)
instantiated with the store: `GetAllWallets` is `st.wallets` and the sum
is the pure `GetUserTransactionSum`. -/
def RunReconciliationSt (st : St) : List ReconciliationResult :=
  RunReconciliation (fun u => .ok (GetUserTransactionSum st u)) st.wallets

/-- One external operation of the core (spec section 6), carrying the
fresh id `uuid.New()` would produce for `createAccount`. -/
inductive Op where
  | createUser (newId : UserId) (name email : String)
  | fund (u : UserId) (a : Int) (r : String)
  | withdraw (u : UserId) (a : Int) (r : String)
  | transfer (f g : UserId) (a : Int) (r : String)
deriving DecidableEq

/-- The largest int64 value, 2^63 - 1. -/
def int64Max : Int := 9223372036854775807

/-- Two's-complement wrap-around of Go's int64 arithmetic: the unique
value congruent to `n` modulo 2^64 lying in [-2^63, 2^63). -/
def wrap64 (n : Int) : Int :=
  (n + 9223372036854775808) % 18446744073709551616 - 9223372036854775808

/-- The atomic unit of `walletUseCase.FundWallet` with Go's int64
wrap-around of `newBalance := wallet.Balance + amount` (part_004 line
199) made explicit; otherwise identical to `FundWalletUnit`. -/
def FundWalletUnit64 (st : St) (u : UserId) (a : Int) (r : String) :
    Except OpError Transaction × St :=
  match WalletGetByUserID st u with
  | none => (.error (.generic "failed to get wallet"), st)
  | some wallet =>
    let txn : Transaction :=
      { userId := u, type := .credit, amount := a,
        description := "Wallet funding", status := .completed,
        reference := r, fromUserId := none, toUserId := none }
    match TransactionCreate st.transactions txn with
    | .error _ => (.error (.generic "failed to create transaction"), st)
    | .ok txns =>
      (.ok txn,
        UpdateBalance { st with transactions := txns } u
          (wrap64 (wallet.balance + a)))

/-- Model of `walletUseCase.FundWallet` over the int64 unit. -/
def FundWallet64 (st : St) (u : UserId) (a : Int) (r : String) :
    Except OpError Transaction × St :=
  if a ≤ 0 then (.error .invalidAmount, st)
  else
    match GetByReference st r with
    | some existing => (.ok existing, st)
    | none =>
      match UserGetByID st u with
      | none => (.error .userNotFound, st)
      | some _ => FundWalletUnit64 st u a r

/-- The atomic unit of `walletUseCase.WithdrawFunds` with Go's int64
wrap-around of `newBalance := wallet.Balance - amount` (part_004 line
277) made explicit. -/
def WithdrawFundsUnit64 (st : St) (u : UserId) (a : Int) (r : String) :
    Except OpError Transaction × St :=
  match WalletGetByUserID st u with
  | none => (.error (.generic "failed to get wallet"), st)
  | some wallet =>
    if wallet.balance < a then (.error .insufficientFunds, st)
    else
      let txn : Transaction :=
        { userId := u, type := .debit, amount := a,
          description := "Wallet withdrawal", status := .completed,
          reference := r, fromUserId := none, toUserId := none }
      match TransactionCreate st.transactions txn with
      | .error _ => (.error (.generic "failed to create transaction"), st)
      | .ok txns =>
        (.ok txn,
          UpdateBalance { st with transactions := txns } u
            (wrap64 (wallet.balance - a)))

/-- Model of `walletUseCase.WithdrawFunds` over the int64 unit. -/
def WithdrawFunds64 (st : St) (u : UserId) (a : Int) (r : String) :
    Except OpError Transaction × St :=
  if a ≤ 0 then (.error .invalidAmount, st)
  else
    match GetByReference st r with
    | some existing => (.ok existing, st)
    | none =>
      match UserGetByID st u with
      | none => (.error .userNotFound, st)
      | some _ => WithdrawFundsUnit64 st u a r

/-- The atomic unit of `walletUseCase.TransferFunds` with Go's int64
wrap-around of the debit (part_004 line 376) and the credit (line 383)
made explicit. -/
def TransferFundsUnit64 (st : St) (f g : UserId) (a : Int) (r : String)
    (toUser : User) : Except OpError Transaction × St :=
  match WalletGetByUserID st f with
  | none => (.error (.generic "failed to get sender wallet"), st)
  | some fromWallet =>
    if fromWallet.balance < a then (.error .insufficientFunds, st)
    else
      match WalletGetByUserID st g with
      | none => (.error (.generic "failed to get recipient wallet"), st)
      | some toWallet =>
        let txn : Transaction :=
          { userId := f, type := .transfer, amount := a,
            description := "Transfer to " ++ toUser.name,
            status := .completed, reference := r,
            fromUserId := some f, toUserId := some g }
        match TransactionCreate st.transactions txn with
        | .error _ => (.error (.generic "failed to create transaction"), st)
        | .ok txns =>
          let st1 := UpdateBalance { st with transactions := txns } f
            (wrap64 (fromWallet.balance - a))
          (.ok txn, UpdateBalance st1 g (wrap64 (toWallet.balance + a)))

/-- Model of `walletUseCase.TransferFunds` over the int64 unit. -/
def TransferFunds64 (st : St) (f g : UserId) (a : Int) (r : String) :
    Except OpError Transaction × St :=
  if a ≤ 0 then (.error .invalidAmount, st)
  else if f == g then (.error .sameUser, st)
  else
    match GetByReference st r with
    | some existing => (.ok existing, st)
    | none =>
      match UserGetByID st f with
      | none => (.error (.generic "sender not found"), st)
      | some _ =>
        match UserGetByID st g with
        | none => (.error (.generic "recipient not found"), st)
        | some toUser => TransferFundsUnit64 st f g a r toUser

/-- The store after one operation under the int64 balance semantics: the
committed state on success, the rolled-back (unchanged) state on
failure. -/
def applyOp64 (st : St) : Op → St
  | .createUser i n e => (CreateUser st i n e).2
  | .fund u a r => (FundWallet64 st u a r).2
  | .withdraw u a r => (WithdrawFunds64 st u a r).2
  | .transfer f g a r => (TransferFunds64 st f g a r).2

/-- The empty store. -/
def initSt : St := { users := [], wallets := [], transactions := [] }

/-- Every wallet row holds a non-negative balance. -/
def BalancesNonneg (st : St) : Prop := ∀ w ∈ st.wallets, 0 ≤ w.balance

instance (st : St) : Decidable (BalancesNonneg st) := by
  unfold BalancesNonneg; infer_instance

/-- Every wallet row holds a valid non-negative int64 balance. -/
def Balances64 (st : St) : Prop :=
  ∀ w ∈ st.wallets, 0 ≤ w.balance ∧ w.balance ≤ int64Max

instance (st : St) : Decidable (Balances64 st) := by
  unfold Balances64; infer_instance

/-- The committed credit of the operation, if any, stays within int64:
for a fund, the owner's stored balance plus the amount; for a transfer,
the recipient's stored balance plus the amount. Withdrawals and account
creation write no sum that can exceed the range. -/
def NoOverflow (st : St) : Op → Prop
  | .createUser _ _ _ => True
  | .fund u a _ => walletBalance st u + a ≤ int64Max
  | .withdraw _ _ _ => True
  | .transfer _ g a _ => walletBalance st g + a ≤ int64Max

instance (st : St) (op : Op) : Decidable (NoOverflow st op) :=
  match op with
  | .createUser _ _ _ => isTrue trivial
  | .fund u a _ =>
    inferInstanceAs (Decidable (walletBalance st u + a ≤ int64Max))
  | .withdraw _ _ _ => isTrue trivial
  | .transfer _ g a _ =>
    inferInstanceAs (Decidable (walletBalance st g + a ≤ int64Max))

/-- Along the run of the operation sequence, every committed credit
stays within int64. -/
def OpsInBounds (st : St) : List Op → Prop
  | [] => True
  | op :: ops => NoOverflow st op ∧ OpsInBounds (applyOp64 st op) ops

/-- Evaluator for `OpsInBounds`. -/
def decOpsInBounds : (st : St) → (ops : List Op) → Decidable (OpsInBounds st ops)
  | _, [] => isTrue trivial
  | st, op :: ops =>
    haveI : Decidable (OpsInBounds (applyOp64 st op) ops) :=
      decOpsInBounds (applyOp64 st op) ops
    inferInstanceAs
      (Decidable (NoOverflow st op ∧ OpsInBounds (applyOp64 st op) ops))

instance (st : St) (ops : List Op) : Decidable (OpsInBounds st ops) :=
  decOpsInBounds st ops

/-! Concrete stores and records used by counterexamples and witnesses. -/

/-- A completed credit entry with reference `r1`. -/
def txnR1 : Transaction :=
  { userId := 1, type := .credit, amount := 100,
    description := "Wallet funding", status := .completed,
    reference := "r1", fromUserId := none, toUserId := none }

/-- One user, one wallet, one existing entry with reference `r1`. -/
def stC1 : St :=
  { users := [{ id := 1, name := "A", email := "a" }],
    wallets := [{ userId := 1, balance := 100 }],
    transactions := [txnR1] }

/-- A completed credit entry with reference `w1`. -/
def txnW1 : Transaction :=
  { userId := 1, type := .credit, amount := 100,
    description := "Wallet funding", status := .completed,
    reference := "w1", fromUserId := none, toUserId := none }

/-- One user whose wallet holds 0, and an existing entry with
reference `w1`. -/
def stC4 : St :=
  { users := [{ id := 1, name := "A", email := "a" }],
    wallets := [{ userId := 1, balance := 0 }],
    transactions := [txnW1] }

/-- Two users with funded wallets and no transactions. -/
def stTwo : St :=
  { users := [{ id := 1, name := "A", email := "a" },
              { id := 2, name := "B", email := "b" }],
    wallets := [{ userId := 1, balance := 100 },
                { userId := 2, balance := 100 }],
    transactions := [] }

/-- The entry the winning concurrent `FundWallet(1, 100, "r5")` creates. -/
def txnR5 : Transaction :=
  { userId := 1, type := .credit, amount := 100,
    description := "Wallet funding", status := .completed,
    reference := "r5", fromUserId := none, toUserId := none }

/-- One user with balance 50 and no transactions: the store as the losing
caller's idempotency pre-check sees it. -/
def stC5 : St :=
  { users := [{ id := 1, name := "A", email := "a" }],
    wallets := [{ userId := 1, balance := 50 }],
    transactions := [] }

/-- Store `stC5` after the winning concurrent `FundWallet(1, 100, "r5")`
committed: the store as the losing caller's atomic unit sees it. -/
def stC5Unit : St :=
  { users := [{ id := 1, name := "A", email := "a" }],
    wallets := [{ userId := 1, balance := 150 }],
    transactions := [txnR5] }

/-- A completed credit entry with reference `r9`. -/
def txnR9 : Transaction :=
  { userId := 1, type := .credit, amount := 100,
    description := "Wallet funding", status := .completed,
    reference := "r9", fromUserId := none, toUserId := none }

/-- A store with no users at all but an existing entry with
reference `r9`. -/
def stC9 : St :=
  { users := [], wallets := [], transactions := [txnR9] }

/-- The spec section 8 scenario: create two accounts, fund 10000,
withdraw 2000, transfer 3000. -/
def opsScenario : List Op :=
  [.createUser 1 "A" "a", .createUser 2 "B" "b",
   .fund 1 10000 "f1", .withdraw 1 2000 "w1", .transfer 1 2 3000 "t1"]

/-- An overflowing run: create one account, then fund it twice with the
int64 maximum 9223372036854775807 under distinct references — both funds
pass the `amount > 0` validation, and the second committed write
`wrap64 (int64Max + int64Max)` is -2. -/
def opsOverflow : List Op :=
  [.createUser 1 "A" "a",
   .fund 1 9223372036854775807 "f1", .fund 1 9223372036854775807 "f2"]

/-- A store whose ledger contains a completed credit, debit and transfer
(the section 8 scenario's ledger) with matching stored balances. -/
def stRecon : St :=
  { users := [{ id := 1, name := "A", email := "a" },
              { id := 2, name := "B", email := "b" }],
    wallets := [{ userId := 1, balance := 5000 },
                { userId := 2, balance := 3000 }],
    transactions :=
      [{ userId := 1, type := .credit, amount := 10000,
         description := "Wallet funding", status := .completed,
         reference := "f1", fromUserId := none, toUserId := none },
       { userId := 1, type := .debit, amount := 2000,
         description := "Wallet withdrawal", status := .completed,
         reference := "w1", fromUserId := none, toUserId := none },
       { userId := 1, type := .transfer, amount := 3000,
         description := "Transfer to B", status := .completed,
         reference := "t1", fromUserId := some 1, toUserId := some 2 }] }

/-- A sum computation that fails for user 1 and succeeds otherwise,
exercising the skip-and-continue path of the reconciliation loop. -/
def sumFnRecon (u : UserId) : Except String Int :=
  if u == 1 then .error "database error"
  else .ok (GetUserTransactionSum stRecon u)

/-- Propositional equality test on `Except` results. -/
instance {ε α : Type} [DecidableEq ε] [DecidableEq α] :
    DecidableEq (Except ε α) := fun a b =>
  match a, b with
  | .ok x, .ok y => decidable_of_iff (x = y) (by simp)
  | .ok _, .error _ => isFalse (by simp)
  | .error _, .ok _ => isFalse (by simp)
  | .error x, .error y => decidable_of_iff (x = y) (by simp)

/-! Helper lemmas about the store primitives. -/

/-- Lemma: `UpdateBalance` for user `u` rewrites the wallet row `GetByUserID`
finds for `u` to the new balance. -/
theorem find?_updateWallets_self (l : List Wallet) (u : UserId) (b : Int) :
    (updateWallets l u b).find? (fun w => w.userId == u) =
      (l.find? (fun w => w.userId == u)).map
        (fun w => { w with balance := b }) := by
  induction l with
  | nil => rfl
  | cons w ws ih =>
    by_cases h : w.userId = u
    · simp [updateWallets, h]
    · simpa [updateWallets, h] using ih

/-- Lemma: `UpdateBalance` for user `u` leaves the wallet row `GetByUserID`
finds for any other user untouched. -/
theorem find?_updateWallets_ne (l : List Wallet) {u v : UserId} (b : Int)
    (h : u ≠ v) :
    (updateWallets l u b).find? (fun w => w.userId == v) =
      l.find? (fun w => w.userId == v) := by
  induction l with
  | nil => rfl
  | cons w ws ih =>
    by_cases hw : w.userId = u
    · simpa [updateWallets, hw, h] using ih
    · by_cases hv : w.userId = v
      · have hl : updateWallets (w :: ws) u b = w :: updateWallets ws u b := by
          simp [updateWallets, hw]
        have hp : (fun x : Wallet => x.userId == v) w = true := by simp [hv]
        rw [hl, @List.find?_cons_of_pos _ (fun x : Wallet => x.userId == v) w
            (updateWallets ws u b) hp,
          @List.find?_cons_of_pos _ (fun x : Wallet => x.userId == v) w ws hp]
      · simpa [updateWallets, hw, hv] using ih

/-- Lemma: a value already in int64 range is a fixed point of the int64
wrap-around. -/
theorem wrap64_eq_self (n : Int) (h1 : -9223372036854775808 ≤ n)
    (h2 : n ≤ int64Max) : wrap64 n = n := by
  unfold int64Max at h2
  unfold wrap64
  rw [Int.emod_eq_of_lt (by omega) (by omega)]
  omega

/-- Lemma: `UpdateBalance` preserves validity (non-negative, in int64
range) of all balances when the written balance is valid. -/
theorem bounds64_updateWallets {l : List Wallet} {u : UserId} {b : Int}
    (hl : ∀ w ∈ l, 0 ≤ w.balance ∧ w.balance ≤ int64Max)
    (hb : 0 ≤ b ∧ b ≤ int64Max) :
    ∀ w ∈ updateWallets l u b, 0 ≤ w.balance ∧ w.balance ≤ int64Max := by
  intro w hw
  simp only [updateWallets, List.mem_map] at hw
  obtain ⟨x, hx, rfl⟩ := hw
  by_cases h : x.userId = u
  · simp [h, hb.1, hb.2]
  · simpa [h] using hl x hx

/-- Inserting an entry whose reference is absent from the table
succeeds and appends the row. -/
theorem transactionCreate_fresh (l : List Transaction) (t : Transaction)
    (h : l.find? (fun x => x.reference == t.reference) = none) :
    TransactionCreate l t = .ok (l ++ [t]) := by
  unfold TransactionCreate
  rw [h]

/-- The raced fund coincides with the sequential one when nothing commits
between the pre-checks and the atomic unit. -/
theorem fundWalletRaced_eq_fundWallet (st : St) (u : UserId) (a : Int)
    (r : String) : FundWalletRaced st st u a r = FundWallet st u a r := rfl

/-! Claim theorems. -/

/-- Claim C1, as stated, is false at this input: `FundWallet` is called
with amount 0 and reference `r1`, a transaction with reference `r1`
already exists, and yet the call does not return that entry — the amount
validation precedes the idempotency lookup and fails with
`ErrInvalidAmount` (part_004 lines 144-146 before 148-155). -/
theorem claim_C1_counterexample :
    GetByReference stC1 "r1" = some txnR1 ∧
    FundWallet stC1 1 0 "r1" = (.error .invalidAmount, stC1) ∧
    (FundWallet stC1 1 0 "r1").1 ≠ .ok txnR1 := by decide

/-- Claim C1 (amended): for every fund, withdraw or transfer that passes
the pre-validation (positive amount, and distinct parties for transfer)
and whose reference already has a transaction entry, the operation
returns that existing entry unchanged, mutates no balance and creates no
entry (the returned store is the input store), regardless of whether the
amount or kind of the request matches the existing entry. -/
theorem claim_C1_theorem (st : St) (u : UserId) (a : Int) (r : String)
    (t : Transaction) (ha : 0 < a) (href : GetByReference st r = some t) :
    FundWallet st u a r = (.ok t, st) ∧
    WithdrawFunds st u a r = (.ok t, st) ∧
    ∀ f g : UserId, f ≠ g → TransferFunds st f g a r = (.ok t, st) := by
  have ha' : ¬ a ≤ 0 := not_le.mpr ha
  refine ⟨?_, ?_, ?_⟩
  · simp [FundWallet, href, ha']
  · simp [WithdrawFunds, href, ha']
  · intro f g hfg
    simp [TransferFunds, href, ha', hfg]

/-- Claim C1 witness: the amended theorem applied at amount 5 against the
store `stC1`, whose ledger already holds `txnR1` under reference `r1`. -/
theorem claim_C1_witness :
    ((0 : Int) < 5 ∧ GetByReference stC1 "r1" = some txnR1) ∧
    (FundWallet stC1 2 5 "r1" = (.ok txnR1, stC1) ∧
     WithdrawFunds stC1 2 5 "r1" = (.ok txnR1, stC1) ∧
     ∀ f g : UserId, f ≠ g → TransferFunds stC1 f g 5 "r1" = (.ok txnR1, stC1)) :=
  ⟨⟨by decide, by decide⟩,
   claim_C1_theorem stC1 2 5 "r1" txnR1 (by decide) (by decide)⟩

/-- Claim C9, as stated, is false at this input: the store holds an entry
with reference `r9` and no user 7 exists, yet `FundWallet 7 0 "r9"` does
not return that entry successfully — the amount validation rejects the
call first (part_004 lines 144-146). -/
theorem claim_C9_counterexample :
    GetByReference stC9 "r9" = some txnR9 ∧
    UserGetByID stC9 7 = none ∧
    FundWallet stC9 7 0 "r9" = (.error .invalidAmount, stC9) ∧
    isSuccess (FundWallet stC9 7 0 "r9").1 = false := by decide

/-- Claim C9 (amended): in fund and withdraw the idempotency lookup runs
before the account-existence check, so for a positive amount, when a
transaction with the given reference already exists the call returns it
successfully even when the supplied owner id has no user row, and the
`ErrUserNotFound` outcome is never reached in that case. -/
theorem claim_C9_theorem (st : St) (u : UserId) (a : Int) (r : String)
    (t : Transaction) (ha : 0 < a) (href : GetByReference st r = some t)
    (_hu : UserGetByID st u = none) :
    FundWallet st u a r = (.ok t, st) ∧
    WithdrawFunds st u a r = (.ok t, st) ∧
    (FundWallet st u a r).1 ≠ .error .userNotFound ∧
    (WithdrawFunds st u a r).1 ≠ .error .userNotFound := by
  have ha' : ¬ a ≤ 0 := not_le.mpr ha
  have hf : FundWallet st u a r = (.ok t, st) := by
    simp [FundWallet, href, ha']
  have hw : WithdrawFunds st u a r = (.ok t, st) := by
    simp [WithdrawFunds, href, ha']
  exact ⟨hf, hw, by simp [hf], by simp [hw]⟩

/-- Claim C9 witness: the amended theorem applied to the userless store
`stC9`, whose ledger holds `txnR9` under reference `r9`, with owner id 7. -/
theorem claim_C9_witness :
    ((0 : Int) < 5 ∧ GetByReference stC9 "r9" = some txnR9 ∧
      UserGetByID stC9 7 = none) ∧
    (FundWallet stC9 7 5 "r9" = (.ok txnR9, stC9) ∧
     WithdrawFunds stC9 7 5 "r9" = (.ok txnR9, stC9) ∧
     (FundWallet stC9 7 5 "r9").1 ≠ .error .userNotFound ∧
     (WithdrawFunds stC9 7 5 "r9").1 ≠ .error .userNotFound) :=
  ⟨⟨by decide, by decide, by decide⟩,
   claim_C9_theorem stC9 7 5 "r9" txnR9 (by decide) (by decide) (by decide)⟩

/-- Claim C5: the code does not recover from a reference-uniqueness
violation at entry creation. Failing run: the pre-check of
`FundWallet(1, 100, "r5")` sees store `stC5` (no entry `r5`), a
concurrent identical call commits first turning the store into
`stC5Unit` (which holds `txnR5` under `r5`), and the loser's atomic unit
then hits the unique constraint. The operation returns the wrapped
generic failure of part_004 lines 193-196 instead of re-fetching and
returning `txnR5` (`WithdrawFunds` and `TransferFunds` share the same
create-error branch, part_004 lines 271-274 and 370-373). -/
theorem claim_C5_theorem :
    GetByReference stC5 "r5" = none ∧
    FundWallet stC5 1 100 "r5" = (.ok txnR5, stC5Unit) ∧
    GetByReference stC5Unit "r5" = some txnR5 ∧
    FundWalletRaced stC5 stC5Unit 1 100 "r5" =
      (.error (.generic "failed to create transaction"), stC5Unit) ∧
    (FundWalletRaced stC5 stC5Unit 1 100 "r5").1 ≠ .ok txnR5 := by decide

/-- Claim C6: the wallet-access order of `TransferFunds` is always the
caller-supplied "source first, then destination" (part_004 lines 339 and
352), not a fixed total order independent of direction: between the same
funded pair, transferring 1 to 2 touches the wallets as `[1, 2]` while
transferring 2 to 1 touches them as `[2, 1]`. -/
theorem claim_C6_theorem :
    TransferWalletAccessOrder stTwo 1 2 10 "t6" = [1, 2] ∧
    TransferWalletAccessOrder stTwo 2 1 10 "t6" = [2, 1] ∧
    TransferWalletAccessOrder stTwo 1 2 10 "t6" ≠
      TransferWalletAccessOrder stTwo 2 1 10 "t6" := by decide

/-- Claim C4, as stated, is false at this input: user 1's wallet holds 0,
the requested withdrawal amount is 5, yet the operation does not fail
with InsufficientFunds — the reference `w1` already has an entry, so the
idempotency pre-check returns it successfully before any funds check
(part_004 lines 220-227 before 255-259). -/
theorem claim_C4_counterexample :
    WalletGetByUserID stC4 1 = some { userId := 1, balance := 0 } ∧
    (0 : Int) < 5 ∧
    WithdrawFunds stC4 1 5 "w1" = (.ok txnW1, stC4) ∧
    (WithdrawFunds stC4 1 5 "w1").1 ≠ .error .insufficientFunds := by decide

/-- Claim C4 (amended): for every withdraw (and every transfer with
distinct parties) **whose reference is fresh**, naming an existing owner
whose wallet balance is non-negative and less than the requested amount,
the operation fails with InsufficientFunds and the store — balances and
entries — is unchanged. -/
theorem claim_C4_theorem (st : St) (u : UserId) (a : Int) (r : String)
    (usr : User) (w : Wallet)
    (href : GetByReference st r = none)
    (hu : UserGetByID st u = some usr)
    (hw : WalletGetByUserID st u = some w)
    (hnn : 0 ≤ w.balance) (hlt : w.balance < a) :
    WithdrawFunds st u a r = (.error .insufficientFunds, st) ∧
    ∀ g usrg, u ≠ g → UserGetByID st g = some usrg →
      TransferFunds st u g a r = (.error .insufficientFunds, st) := by
  have ha' : ¬ a ≤ 0 := not_le.mpr (lt_of_le_of_lt hnn hlt)
  constructor
  · simp [WithdrawFunds, WithdrawFundsUnit, href, hu, hw, ha', hlt]
  · intro g usrg hug hg
    simp [TransferFunds, TransferFundsUnit, href, hu, hg, hw, ha', hug, hlt]

/-- Claim C4 witness: the amended theorem applied to `stTwo` (user 1 holds
100) with a withdrawal / transfer of 500 under the fresh reference `w9`. -/
theorem claim_C4_witness :
    (GetByReference stTwo "w9" = none ∧
      UserGetByID stTwo 1 = some { id := 1, name := "A", email := "a" } ∧
      WalletGetByUserID stTwo 1 = some { userId := 1, balance := 100 } ∧
      (0 : Int) ≤ 100 ∧ (100 : Int) < 500) ∧
    (WithdrawFunds stTwo 1 500 "w9" = (.error .insufficientFunds, stTwo) ∧
     ∀ g usrg, 1 ≠ g → UserGetByID stTwo g = some usrg →
       TransferFunds stTwo 1 g 500 "w9" = (.error .insufficientFunds, stTwo)) :=
  ⟨⟨by decide, by decide, by decide, by decide, by decide⟩,
   claim_C4_theorem stTwo 1 500 "w9" { id := 1, name := "A", email := "a" }
     { userId := 1, balance := 100 } (by decide) (by decide) (by decide)
     (by decide) (by decide)⟩

/-- Claim C7, as stated, is false at this input: a transfer with positive
amount and fresh reference whose source owner does not exist fails with
the ad-hoc wrapped error `sender not found` (part_004 lines 314-316),
which is not the `ErrUserNotFound` sentinel the claim's AccountNotFound
kind denotes (the HTTP layer's `err == usecases.ErrUserNotFound`
comparison after `TransferFunds` can therefore never match). -/
theorem claim_C7_counterexample :
    GetByReference stC9 "t7" = none ∧
    UserGetByID stC9 5 = none ∧
    TransferFunds stC9 5 6 100 "t7" =
      (.error (.generic "sender not found"), stC9) ∧
    (TransferFunds stC9 5 6 100 "t7").1 ≠ .error .userNotFound := by decide

/-- Claim C7 (amended): with a positive amount and a fresh reference,
fund and withdraw naming an owner with no user row fail with the
`ErrUserNotFound` (AccountNotFound) kind; a transfer between distinct
parties instead fails with the generic error `sender not found` when the
source owner is missing, and with the generic error `recipient not
found` when the source exists but the destination owner is missing —
never with the AccountNotFound kind. -/
theorem claim_C7_theorem (st : St) (u : UserId) (a : Int) (r : String)
    (ha : 0 < a) (href : GetByReference st r = none)
    (hu : UserGetByID st u = none) :
    FundWallet st u a r = (.error .userNotFound, st) ∧
    WithdrawFunds st u a r = (.error .userNotFound, st) ∧
    (∀ g, u ≠ g →
      TransferFunds st u g a r = (.error (.generic "sender not found"), st)) ∧
    (∀ f usrf, f ≠ u → UserGetByID st f = some usrf →
      TransferFunds st f u a r =
        (.error (.generic "recipient not found"), st)) := by
  have ha' : ¬ a ≤ 0 := not_le.mpr ha
  refine ⟨?_, ?_, ?_, ?_⟩
  · simp [FundWallet, href, hu, ha']
  · simp [WithdrawFunds, href, hu, ha']
  · intro g hug
    simp [TransferFunds, href, hu, ha', hug]
  · intro f usrf hfu hf
    simp [TransferFunds, href, hu, hf, ha', hfu]

/-- Claim C7 witness: the amended theorem applied to `stTwo` with the
nonexistent owner 9, amount 5, fresh reference `n1`, and existing user 1
as the transfer source for the recipient-not-found case. -/
theorem claim_C7_witness :
    ((0 : Int) < 5 ∧ GetByReference stTwo "n1" = none ∧
      UserGetByID stTwo 9 = none) ∧
    (FundWallet stTwo 9 5 "n1" = (.error .userNotFound, stTwo) ∧
     WithdrawFunds stTwo 9 5 "n1" = (.error .userNotFound, stTwo) ∧
     (∀ g, 9 ≠ g → TransferFunds stTwo 9 g 5 "n1" =
        (.error (.generic "sender not found"), stTwo)) ∧
     (∀ f usrf, f ≠ 9 → UserGetByID stTwo f = some usrf →
        TransferFunds stTwo f 9 5 "n1" =
          (.error (.generic "recipient not found"), stTwo))) :=
  ⟨⟨by decide, by decide, by decide⟩,
   claim_C7_theorem stTwo 9 5 "n1" (by decide) (by decide) (by decide)⟩

/-- Claim C2: for every successful transfer (including the idempotent
short-circuit), the sum of the stored balances of the source and the
destination after the operation equals their sum before it. -/
theorem claim_C2_theorem (st : St) (f g : UserId) (a : Int) (r : String)
    (hok : isSuccess (TransferFunds st f g a r).1 = true) :
    walletBalance (TransferFunds st f g a r).2 f +
      walletBalance (TransferFunds st f g a r).2 g =
    walletBalance st f + walletBalance st g := by
  by_cases h1 : a ≤ 0
  · simp [TransferFunds, h1, isSuccess] at hok
  by_cases h2 : f = g
  · simp [TransferFunds, h1, h2, isSuccess] at hok
  cases h3 : GetByReference st r with
  | some t => simp [TransferFunds, h1, h2, h3]
  | none =>
  cases h4 : UserGetByID st f with
  | none => simp [TransferFunds, h1, h2, h3, h4, isSuccess] at hok
  | some uf =>
  cases h5 : UserGetByID st g with
  | none => simp [TransferFunds, h1, h2, h3, h4, h5, isSuccess] at hok
  | some ug =>
  cases h6 : WalletGetByUserID st f with
  | none =>
    simp [TransferFunds, TransferFundsUnit, h1, h2, h3, h4, h5, h6,
      isSuccess] at hok
  | some fw =>
  by_cases h7 : fw.balance < a
  · simp [TransferFunds, TransferFundsUnit, h1, h2, h3, h4, h5, h6, h7,
      isSuccess] at hok
  cases h8 : WalletGetByUserID st g with
  | none =>
    simp [TransferFunds, TransferFundsUnit, h1, h2, h3, h4, h5, h6, h7, h8,
      isSuccess] at hok
  | some gw =>
  have hgf : g ≠ f := fun h => h2 h.symm
  have hfg : f ≠ g := h2
  have h6' : st.wallets.find? (fun w => w.userId == f) = some fw := h6
  have h8' : st.wallets.find? (fun w => w.userId == g) = some gw := h8
  have h9 : TransactionCreate st.transactions
      { userId := f, type := TransactionType.transfer, amount := a,
        description := "Transfer to " ++ ug.name,
        status := TransactionStatus.completed, reference := r,
        fromUserId := some f, toUserId := some g } =
      .ok (st.transactions ++
        [{ userId := f, type := TransactionType.transfer, amount := a,
           description := "Transfer to " ++ ug.name,
           status := TransactionStatus.completed, reference := r,
           fromUserId := some f, toUserId := some g }]) :=
    transactionCreate_fresh _ _ (by simpa [GetByReference] using h3)
  have ne1 : ∀ (l : List Wallet) (b : Int),
      (updateWallets l g b).find? (fun w => w.userId == f) =
        l.find? (fun w => w.userId == f) :=
    fun l b => find?_updateWallets_ne l b hgf
  have ne2 : ∀ (l : List Wallet) (b : Int),
      (updateWallets l f b).find? (fun w => w.userId == g) =
        l.find? (fun w => w.userId == g) :=
    fun l b => find?_updateWallets_ne l b hfg
  simp only [TransferFunds, TransferFundsUnit, h1, h2, h3, h4, h5, h6, h7,
    h8, h9, beq_iff_eq, ite_false, if_neg, not_false_eq_true]
  simp [walletBalance, WalletGetByUserID, UpdateBalance, ne1, ne2,
    find?_updateWallets_self, h6', h8']

/-- Claim C2 witness: the theorem applied to `stTwo` and a successful
transfer of 30 from user 1 to user 2. -/
theorem claim_C2_witness :
    isSuccess (TransferFunds stTwo 1 2 30 "t1").1 = true ∧
    (walletBalance (TransferFunds stTwo 1 2 30 "t1").2 1 +
       walletBalance (TransferFunds stTwo 1 2 30 "t1").2 2 =
     walletBalance stTwo 1 + walletBalance stTwo 2) :=
  ⟨by decide, claim_C2_theorem stTwo 1 2 30 "t1" (by decide)⟩

/-- Lemma: `CreateUser` preserves validity of all balances. -/
theorem bounds64_CreateUser (st : St) (i : UserId) (n e : String)
    (h : Balances64 st) : Balances64 (CreateUser st i n e).2 := by
  unfold CreateUser
  cases hge : GetByEmail st e with
  | some usr => simpa [hge] using h
  | none =>
    by_cases hi : st.users.any (fun x => x.id == i)
    · simpa [hge, hi] using h
    by_cases hw : st.wallets.any (fun w => w.userId == i)
    · simpa [hge, hi, hw] using h
    intro wu hwu
    simp only [hge, hi, hw, Bool.false_eq_true, if_false, List.mem_append,
      List.mem_singleton] at hwu
    rcases hwu with hwu | hwu
    · exact h wu hwu
    · simp [hwu, int64Max]

/-- Lemma: `FundWallet64` preserves validity of all balances when the
committed credit stays within int64. -/
theorem bounds64_FundWallet64 (st : St) (u : UserId) (a : Int) (r : String)
    (h : Balances64 st) (hov : walletBalance st u + a ≤ int64Max) :
    Balances64 (FundWallet64 st u a r).2 := by
  unfold FundWallet64 FundWalletUnit64
  by_cases h1 : a ≤ 0
  · simpa [h1] using h
  cases h3 : GetByReference st r with
  | some t => simpa [h1, h3] using h
  | none =>
  cases h4 : UserGetByID st u with
  | none => simpa [h1, h3, h4] using h
  | some usr =>
  cases h6 : WalletGetByUserID st u with
  | none => simpa [h1, h3, h4, h6] using h
  | some w =>
  cases h9 : TransactionCreate st.transactions
      { userId := u, type := TransactionType.credit, amount := a,
        description := "Wallet funding", status := TransactionStatus.completed,
        reference := r, fromUserId := none, toUserId := none } with
  | error msg => simpa [h1, h3, h4, h6, h9] using h
  | ok txns =>
    have hwmem : w ∈ st.wallets := List.mem_of_find?_eq_some h6
    obtain ⟨hwb0, hwbM⟩ := h w hwmem
    have hba : walletBalance st u = w.balance := by simp [walletBalance, h6]
    rw [hba] at hov
    have hwr : wrap64 (w.balance + a) = w.balance + a :=
      wrap64_eq_self _ (by omega) hov
    simp only [h1, h3, h4, h6, h9, if_neg, not_false_eq_true, hwr]
    exact bounds64_updateWallets h ⟨by omega, hov⟩

/-- Lemma: `WithdrawFunds64` preserves validity of all balances; the
funds check makes the committed debit stay within int64 unaided. -/
theorem bounds64_WithdrawFunds64 (st : St) (u : UserId) (a : Int)
    (r : String) (h : Balances64 st) :
    Balances64 (WithdrawFunds64 st u a r).2 := by
  unfold WithdrawFunds64 WithdrawFundsUnit64
  by_cases h1 : a ≤ 0
  · simpa [h1] using h
  cases h3 : GetByReference st r with
  | some t => simpa [h1, h3] using h
  | none =>
  cases h4 : UserGetByID st u with
  | none => simpa [h1, h3, h4] using h
  | some usr =>
  cases h6 : WalletGetByUserID st u with
  | none => simpa [h1, h3, h4, h6] using h
  | some w =>
  by_cases h7 : w.balance < a
  · simpa [h1, h3, h4, h6, h7] using h
  cases h9 : TransactionCreate st.transactions
      { userId := u, type := TransactionType.debit, amount := a,
        description := "Wallet withdrawal",
        status := TransactionStatus.completed,
        reference := r, fromUserId := none, toUserId := none } with
  | error msg => simpa [h1, h3, h4, h6, h7, h9] using h
  | ok txns =>
    have hwmem : w ∈ st.wallets := List.mem_of_find?_eq_some h6
    obtain ⟨hwb0, hwbM⟩ := h w hwmem
    have hwr : wrap64 (w.balance - a) = w.balance - a :=
      wrap64_eq_self _ (by omega) (by omega)
    simp only [h1, h3, h4, h6, h7, h9, if_neg, not_false_eq_true, hwr]
    exact bounds64_updateWallets h ⟨by omega, by omega⟩

/-- Lemma: `TransferFunds64` preserves validity of all balances when the
committed credit to the recipient stays within int64. -/
theorem bounds64_TransferFunds64 (st : St) (f g : UserId) (a : Int)
    (r : String) (h : Balances64 st)
    (hov : walletBalance st g + a ≤ int64Max) :
    Balances64 (TransferFunds64 st f g a r).2 := by
  unfold TransferFunds64 TransferFundsUnit64
  by_cases h1 : a ≤ 0
  · simpa [h1] using h
  by_cases h2 : f = g
  · simpa [h1, h2] using h
  cases h3 : GetByReference st r with
  | some t => simpa [h1, h2, h3] using h
  | none =>
  cases h4 : UserGetByID st f with
  | none => simpa [h1, h2, h3, h4] using h
  | some uf =>
  cases h5 : UserGetByID st g with
  | none => simpa [h1, h2, h3, h4, h5] using h
  | some ug =>
  cases h6 : WalletGetByUserID st f with
  | none => simpa [h1, h2, h3, h4, h5, h6] using h
  | some fw =>
  by_cases h7 : fw.balance < a
  · simpa [h1, h2, h3, h4, h5, h6, h7] using h
  cases h8 : WalletGetByUserID st g with
  | none => simpa [h1, h2, h3, h4, h5, h6, h7, h8] using h
  | some gw =>
  cases h9 : TransactionCreate st.transactions
      { userId := f, type := TransactionType.transfer, amount := a,
        description := "Transfer to " ++ ug.name,
        status := TransactionStatus.completed, reference := r,
        fromUserId := some f, toUserId := some g } with
  | error msg => simpa [h1, h2, h3, h4, h5, h6, h7, h8, h9] using h
  | ok txns =>
    have hfmem : fw ∈ st.wallets := List.mem_of_find?_eq_some h6
    obtain ⟨hfb0, hfbM⟩ := h fw hfmem
    have hgmem : gw ∈ st.wallets := List.mem_of_find?_eq_some h8
    obtain ⟨hgb0, hgbM⟩ := h gw hgmem
    have hba : walletBalance st g = gw.balance := by simp [walletBalance, h8]
    rw [hba] at hov
    have hwr1 : wrap64 (fw.balance - a) = fw.balance - a :=
      wrap64_eq_self _ (by omega) (by omega)
    have hwr2 : wrap64 (gw.balance + a) = gw.balance + a :=
      wrap64_eq_self _ (by omega) hov
    simp only [h1, h2, h3, h4, h5, h6, h7, h8, h9, if_neg, not_false_eq_true,
      beq_iff_eq, ite_false, hwr1, hwr2]
    exact bounds64_updateWallets
      (bounds64_updateWallets h ⟨by omega, by omega⟩) ⟨by omega, hov⟩

/-- Every single in-bounds operation preserves validity of all
balances. -/
theorem bounds64_applyOp64 (st : St) (op : Op) (h : Balances64 st)
    (hov : NoOverflow st op) : Balances64 (applyOp64 st op) := by
  cases op with
  | createUser i n e => exact bounds64_CreateUser st i n e h
  | fund u a r => exact bounds64_FundWallet64 st u a r h hov
  | withdraw u a r => exact bounds64_WithdrawFunds64 st u a r h
  | transfer f g a r => exact bounds64_TransferFunds64 st f g a r h hov

/-- Any in-bounds sequence of operations preserves validity of all
balances. -/
theorem bounds64_foldl (ops : List Op) (st : St) (h : Balances64 st)
    (hin : OpsInBounds st ops) : Balances64 (ops.foldl applyOp64 st) := by
  induction ops generalizing st with
  | nil => exact h
  | cons op ops ih =>
    exact ih (applyOp64 st op) (bounds64_applyOp64 st op h hin.1) hin.2

/-- Claim C3, as stated, is false of the program's int64 arithmetic:
starting from a fresh account, two funds of 9223372036854775807 (the
int64 maximum, accepted by the `amount > 0` validation) under distinct
references commit the wrapped stored balance -2 — a committed negative
balance (`newBalance := wallet.Balance + amount` at part_004 line 199
wraps in Go). -/
theorem claim_C3_counterexample :
    walletBalance (opsOverflow.foldl applyOp64 initSt) 1 = -2 ∧
    ¬ BalancesNonneg (opsOverflow.foldl applyOp64 initSt) := by decide

/-- Claim C3 (amended): account creation (`CreateUser`) initializes the
wallet row with balance 0; and under the int64 semantics of the balance
writes, every completed sequence of operations starting from valid
non-negative int64 balances keeps all stored balances non-negative
**provided no committed credit overflows int64** (at each fund the
owner's stored balance plus the amount, and at each transfer the
recipient's stored balance plus the amount, stays at most int64Max).
The counterexample shows the proviso is necessary. -/
theorem claim_C3_theorem (st : St) :
    (∀ (i : UserId) (n e : String) (usr : User) (st2 : St),
      CreateUser st i n e = (.ok usr, st2) →
      st2.wallets = st.wallets ++ [{ userId := i, balance := 0 }]) ∧
    (∀ ops : List Op, Balances64 st → OpsInBounds st ops →
      BalancesNonneg (ops.foldl applyOp64 st)) := by
  constructor
  · intro i n e usr st2 h
    unfold CreateUser at h
    cases hge : GetByEmail st e with
    | some u2 => rw [hge] at h; simp at h
    | none =>
      rw [hge] at h
      by_cases hi : st.users.any (fun x => x.id == i)
      · simp [hi] at h
      by_cases hw : st.wallets.any (fun w => w.userId == i)
      · simp [hi, hw] at h
      simp only [hi, hw, Bool.false_eq_true, if_false, Prod.mk.injEq] at h
      rw [← h.2]
  · intro ops h hin
    intro w hw
    exact (bounds64_foldl ops st h hin w hw).1

/-- Claim C3 witness: the amended theorem applied to the empty store and
the spec section 8 scenario (create A and B, fund A 10000, withdraw
2000, transfer 3000 to B), whose credits all stay far below int64Max. -/
theorem claim_C3_witness :
    (Balances64 initSt ∧ OpsInBounds initSt opsScenario) ∧
    BalancesNonneg (opsScenario.foldl applyOp64 initSt) :=
  ⟨⟨by decide, by decide⟩,
   (claim_C3_theorem initSt).2 opsScenario (by decide) (by decide)⟩

/-- On a data-model-shaped entry touching account `u`, the SQL `CASE`
contribution coincides with the spec's signed contribution. -/
theorem contribution_eq (u : UserId) (t : Transaction) (hwf : WFEntry t)
    (ht : touches u t = true) :
    sqlCaseContribution u t = specContribution u t := by
  obtain ⟨h1, h2⟩ := hwf
  cases hty : t.type with
  | credit => simp [sqlCaseContribution, specContribution, hty]
  | debit =>
    have hn := h2 (by simp [hty])
    have hu : t.userId = u := by
      simpa [touches, hn.1, hn.2] using ht
    simp [sqlCaseContribution, specContribution, hty, hu]
  | transfer =>
    have hne := h1 hty
    by_cases hf : t.fromUserId = some u
    · have hg : t.toUserId ≠ some u := by
        rw [hf] at hne
        exact fun hh => hne hh.symm
      simp [sqlCaseContribution, specContribution, hty, hf, hg]
    · by_cases hg : t.toUserId = some u
      · simp [sqlCaseContribution, specContribution, hty, hf, hg]
      · simp [sqlCaseContribution, specContribution, hty, hf, hg]

/-- On a ledger of data-model-shaped entries, the SQL sum equals the
spec's sum of signed contributions. -/
theorem sum_contributions_eq (u : UserId) (l : List Transaction)
    (hwf : ∀ t ∈ l, WFEntry t) :
    ((l.filter (fun t => touches u t && t.status == .completed)).map
      (sqlCaseContribution u)).sum =
    ((l.filter (fun t => touches u t && t.status == .completed)).map
      (specContribution u)).sum := by
  have hc : ∀ t ∈ l.filter (fun t => touches u t && t.status == .completed),
      sqlCaseContribution u t = specContribution u t := by
    intro t htf
    rcases List.mem_filter.mp htf with ⟨hmem, hp⟩
    rcases Bool.and_eq_true_iff.mp hp with ⟨htch, _⟩
    exact contribution_eq u t (hwf t hmem) htch
  rw [List.map_congr_left hc]

/-- The reconciliation loop emits exactly one result per wallet whose sum
computation succeeds, in order, skipping the wallets whose computation
errors. -/
theorem runReconciliation_eq_filterMap (sumFn : UserId → Except String Int)
    (ws : List Wallet) :
    RunReconciliation sumFn ws = ws.filterMap (fun w =>
      match sumFn w.userId with
      | .ok c => some (mkReconResult w c)
      | .error _ => none) := by
  induction ws with
  | nil => rfl
  | cons w ws ih =>
    rw [List.filterMap_cons]
    cases hc : sumFn w.userId with
    | error msg => simp [RunReconciliation, hc, ih]
    | ok c => simp [RunReconciliation, hc, ih]

/-- Claim C8: for every account, the reconciliation sum the repository
computes equals the spec's signed sum over all Completed entries touching
the account (on data-model-shaped ledgers); every emitted result flags a
mismatch exactly when its difference is nonzero; and a failing per-account
sum computation skips only that account, the loop continuing with the
rest. -/
theorem claim_C8_theorem (st : St) (u : UserId)
    (sumFn : UserId → Except String Int) (ws : List Wallet)
    (hwf : ∀ t ∈ st.transactions, WFEntry t) :
    GetUserTransactionSum st u = specCalculatedBalance st u ∧
    RunReconciliation sumFn ws = ws.filterMap (fun w =>
      match sumFn w.userId with
      | .ok c => some (mkReconResult w c)
      | .error _ => none) ∧
    ∀ res ∈ RunReconciliation sumFn ws,
      (res.hasMismatch = true ↔ res.difference ≠ 0) := by
  refine ⟨sum_contributions_eq u st.transactions hwf,
    runReconciliation_eq_filterMap sumFn ws, ?_⟩
  intro res hres
  induction ws with
  | nil => simp [RunReconciliation] at hres
  | cons w ws ih =>
    cases hc : sumFn w.userId with
    | error msg =>
      rw [RunReconciliation, hc] at hres
      exact ih hres
    | ok c =>
      rw [RunReconciliation, hc] at hres
      rcases List.mem_cons.mp hres with h | h
      · subst h
        simp [mkReconResult]
      · exact ih h

/-- Claim C8 witness: the theorem applied to the ledger `stRecon` (one
credit, one debit, one transfer, all completed) for account 2, with the
sum computation `sumFnRecon` that fails for account 1 — the loop skips
wallet 1 and still emits wallet 2's result. -/
theorem claim_C8_witness :
    (∀ t ∈ stRecon.transactions, WFEntry t) ∧
    (GetUserTransactionSum stRecon 2 = specCalculatedBalance stRecon 2 ∧
     RunReconciliation sumFnRecon stRecon.wallets =
       stRecon.wallets.filterMap (fun w =>
         match sumFnRecon w.userId with
         | .ok c => some (mkReconResult w c)
         | .error _ => none) ∧
     ∀ res ∈ RunReconciliation sumFnRecon stRecon.wallets,
       (res.hasMismatch = true ↔ res.difference ≠ 0)) :=
  ⟨by decide, claim_C8_theorem stRecon 2 sumFnRecon stRecon.wallets (by decide)⟩

/-- Claim C10: every result the reconciliation loop produces satisfies
`difference = storedBalance - calculatedBalance` (positive exactly when
the stored balance exceeds the balance derived from the log) and
`hasMismatch = true` if and only if `difference ≠ 0`. -/
theorem claim_C10_theorem (sumFn : UserId → Except String Int)
    (ws : List Wallet) (res : ReconciliationResult)
    (h : res ∈ RunReconciliation sumFn ws) :
    res.difference = res.storedBalance - res.calculatedBalance ∧
    (res.hasMismatch = true ↔ res.difference ≠ 0) := by
  induction ws with
  | nil => simp [RunReconciliation] at h
  | cons w ws ih =>
    cases hc : sumFn w.userId with
    | error msg =>
      rw [RunReconciliation, hc] at h
      exact ih h
    | ok c =>
      rw [RunReconciliation, hc] at h
      rcases List.mem_cons.mp h with h | h
      · subst h
        simp [mkReconResult]
      · exact ih h

/-- Claim C10 witness: the theorem applied to the result the store-level
reconciliation run `RunReconciliationSt stRecon` emits for account 1. -/
theorem claim_C10_witness :
    ({ userId := 1, storedBalance := 5000, calculatedBalance := 5000,
       difference := 0, hasMismatch := false } : ReconciliationResult) ∈
      RunReconciliationSt stRecon ∧
    (({ userId := 1, storedBalance := 5000, calculatedBalance := 5000,
        difference := 0, hasMismatch := false } : ReconciliationResult).difference =
      5000 - 5000 ∧
     (({ userId := 1, storedBalance := 5000, calculatedBalance := 5000,
         difference := 0, hasMismatch := false } : ReconciliationResult).hasMismatch =
        true ↔
      ({ userId := 1, storedBalance := 5000, calculatedBalance := 5000,
         difference := 0, hasMismatch := false } : ReconciliationResult).difference ≠ 0)) :=
  ⟨by decide,
   claim_C10_theorem (fun u => .ok (GetUserTransactionSum stRecon u))
     stRecon.wallets
     { userId := 1, storedBalance := 5000, calculatedBalance := 5000,
       difference := 0, hasMismatch := false } (by decide)⟩

end WalletService
